import Mathlib

/-!
A shallow embedding of the object-transfer engine of
`google/cloud/storage/internal/grpc_client.cc`: checksum wire codecs,
the read-range option resolver, the single-shot upload chunker, the
resumable-session creation/restoration logic, and the channel-pool
sizing.  Machine integers are modelled as `Nat`/`Int` (all values in
scope are far from any 64-bit boundary), bytes as `Nat` values below
256, and fallible calls as `Except Status`.
-/

/-- Status codes used by the modelled subset of `google::cloud::Status`. -/
inductive StatusCode where
  | ok
  | invalidArgument
  | outOfRange
  | unimplemented
  | unavailable
  deriving DecidableEq, Repr

/-- `google::cloud::Status`: a code plus a message. -/
structure Status where
  code : StatusCode
  message : String
  deriving DecidableEq, Repr

/-! ### Base64 / big-endian / hex codecs

Modelled from the spec: `Base64Encode`/`Base64Decode` (from
`openssl_util.h`) and `EncodeBigEndian`/`DecodeBigEndian` (from
`internal/big_endian.h`) are not under `src/`; the spec describes the
crc32c wire format as "big-endian 4-byte encoding, then base64", with
decoding failing with `InvalidArgument` on invalid base64 or on any
byte count other than four.
-/

/-- The standard base64 alphabet, in index order. -/
def base64Alphabet : List Char :=
  String.toList "ABCDEFGHIJKLMNOPQRSTUVWXYZabcdefghijklmnopqrstuvwxyz0123456789+/"

/-- The base64 character for a sextet value. -/
def base64EncodeChar (n : Nat) : Char := base64Alphabet.getD n 'A'

/-- Position of a character in a character list, if present. -/
def charIndexIn (c : Char) : List Char → Option Nat
  | [] => none
  | d :: rest => if c = d then some 0 else (charIndexIn c rest).map Nat.succ

/-- The sextet value of a base64 character, if it is in the alphabet. -/
def base64DecodeChar (c : Char) : Option Nat := charIndexIn c base64Alphabet

/-- Base64-encode a byte list, three bytes to four characters, with
standard `=` padding for a final group of one or two bytes. -/
def base64EncodeGroups : List Nat → List Char
  | b0 :: b1 :: b2 :: rest =>
      base64EncodeChar (b0 / 4) ::
      base64EncodeChar (b0 % 4 * 16 + b1 / 16) ::
      base64EncodeChar (b1 % 16 * 4 + b2 / 64) ::
      base64EncodeChar (b2 % 64) :: base64EncodeGroups rest
  | [b0, b1] =>
      [base64EncodeChar (b0 / 4), base64EncodeChar (b0 % 4 * 16 + b1 / 16),
       base64EncodeChar (b1 % 16 * 4), '=']
  | [b0] =>
      [base64EncodeChar (b0 / 4), base64EncodeChar (b0 % 4 * 16), '=', '=']
  | [] => []

/-- `Base64Encode` over a byte list, producing the encoded text. -/
def Base64Encode (bytes : List Nat) : String := String.mk (base64EncodeGroups bytes)

/-- Decode base64 text by four-character quanta; `none` on any character
outside the alphabet, misplaced padding, or a length not divisible by 4. -/
def base64DecodeQuanta : List Char → Option (List Nat)
  | [] => some []
  | c0 :: c1 :: c2 :: c3 :: rest =>
      match base64DecodeChar c0, base64DecodeChar c1 with
      | some d0, some d1 =>
          if c2 = '=' then
            if c3 = '=' ∧ rest = [] then some [d0 * 4 + d1 / 16] else none
          else
            match base64DecodeChar c2 with
            | some d2 =>
                if c3 = '=' then
                  if rest = [] then
                    some [d0 * 4 + d1 / 16, d1 % 16 * 16 + d2 / 4]
                  else none
                else
                  match base64DecodeChar c3 with
                  | some d3 =>
                      (base64DecodeQuanta rest).map fun tail =>
                        (d0 * 4 + d1 / 16) :: (d1 % 16 * 16 + d2 / 4) ::
                          (d2 % 4 * 64 + d3) :: tail
                  | none => none
            | none => none
      | _, _ => none
  | _ => none

/-- `Base64Decode`: decoded bytes, or `InvalidArgument` on malformed input. -/
def Base64Decode (s : String) : Except Status (List Nat) :=
  match base64DecodeQuanta s.toList with
  | some bytes => .ok bytes
  | none => .error ⟨.invalidArgument, "Invalid base64 string"⟩

/-- `EncodeBigEndian` of a 32-bit value: its four bytes, most significant
first. -/
def encodeBigEndian32 (v : Nat) : List Nat :=
  [v / 2 ^ 24 % 256, v / 2 ^ 16 % 256, v / 2 ^ 8 % 256, v % 256]

/-- `DecodeBigEndian<std::uint32_t>`: fails unless given exactly four
bytes. -/
def decodeBigEndian32 (bytes : List Nat) : Except Status Nat :=
  match bytes with
  | [b0, b1, b2, b3] => .ok (b0 * 2 ^ 24 + b1 * 2 ^ 16 + b2 * 2 ^ 8 + b3)
  | _ => .error ⟨.invalidArgument, "Invalid input size for DecodeBigEndian"⟩

/-- Hex digit characters in value order. -/
def hexDigit (n : Nat) : Char :=
  (String.toList "0123456789abcdef").getD n '0'

/-- Hex characters of a byte list, two characters per byte. -/
def hexEncodeBytes : List Nat → List Char
  | [] => []
  | b :: rest => hexDigit (b / 16) :: hexDigit (b % 16) :: hexEncodeBytes rest

/-- `HexEncode` over a byte list. -/
def HexEncode (bytes : List Nat) : String := String.mk (hexEncodeBytes bytes)

/-! ### Crc32c / MD5 wire conversions (`GrpcClient::Crc32cFromProto`,
`Crc32cToProto`, `MD5ToProto`, `ComputeMD5Hash`). -/

/-- `GrpcClient::Crc32cFromProto`: big-endian bytes of the raw proto
value, base64-encoded. -/
def Crc32cFromProto (v : Nat) : String :=
  Base64Encode (encodeBigEndian32 v)

/-- `GrpcClient::Crc32cToProto`: base64-decode then big-endian decode,
propagating either failure. -/
def Crc32cToProto (v : String) : Except Status Nat :=
  match Base64Decode v with
  | .error e => .error e
  | .ok decoded => decodeBigEndian32 decoded

/-- `GrpcClient::MD5ToProto`: empty input maps to empty output;
otherwise base64-decode and hex-encode the bytes. -/
def MD5ToProto (v : String) : Except Status String :=
  if v = "" then .ok ""
  else
    match Base64Decode v with
    | .error e => .error e
    | .ok binary => .ok (HexEncode binary)

/-- `GrpcClient::ComputeMD5Hash`, with the MD5 digest itself (an external
library call) passed in as a function from payload bytes to digest bytes. -/
def ComputeMD5Hash (md5 : List Nat → List Nat) (payload : List Nat) : String :=
  HexEncode (md5 payload)

/-! ### Read-range resolution (`GrpcClient::ToProto(ReadObjectRangeRequest)`
and `GrpcClient::ReadObject`). -/

/-- `ReadObjectRangeRequest` restricted to the fields the resolver
inspects; each `Option` models `HasOption`/`GetOption` presence. -/
structure ReadObjectRangeRequest where
  bucketName : String
  objectName : String
  generation : Option Int
  readRange : Option (Int × Int)
  readLast : Option Int
  readFromOffset : Option Int
  deriving DecidableEq, Repr

/-- The `google.storage.v1.GetObjectMediaRequest` fields the resolver
writes (proto3 scalar fields start at zero). -/
structure GetObjectMediaRequest where
  bucket : String
  object : String
  generation : Int
  readOffset : Int
  readLimit : Int
  deriving DecidableEq, Repr

/-- `GrpcClient::ToProto(ReadObjectRangeRequest const&)`: each option is
applied in source order; `ReadFromOffset` adjusts the limit (when one is
set) before moving the offset, using the pre-move offset value. -/
def ToProtoReadObjectRange (request : ReadObjectRangeRequest) : GetObjectMediaRequest :=
  let r : GetObjectMediaRequest :=
    { bucket := request.bucketName, object := request.objectName,
      generation := match request.generation with | some g => g | none => 0,
      readOffset := 0, readLimit := 0 }
  let r : GetObjectMediaRequest :=
    match request.readRange with
    | some range => { r with readOffset := range.1, readLimit := range.2 - range.1 }
    | none => r
  let r : GetObjectMediaRequest :=
    match request.readLast with
    | some n => { r with readOffset := -n }
    | none => r
  match request.readFromOffset with
  | some offset =>
      if r.readOffset < offset then
        if 0 < r.readLimit then
          { r with readLimit := offset - r.readOffset, readOffset := offset }
        else
          { r with readOffset := offset }
      else r
  | none => r

/-- `GrpcClient::ReadObject`: rejects `ReadLast(0)` locally with
`OutOfRange`; otherwise the (successful) result is the wire request the
streaming read is issued with. -/
def ReadObject (request : ReadObjectRangeRequest) : Except Status GetObjectMediaRequest :=
  if request.readLast = some 0 then
    .error ⟨.outOfRange,
      "ReadLast(0) is invalid in REST and produces incorrect output in gRPC"⟩
  else
    .ok (ToProtoReadObjectRange request)

/-! ### Single-shot upload (`GrpcClient::ToProto(InsertObjectMediaRequest)`
and `GrpcClient::InsertObjectMedia`). -/

/-- `InsertObjectMediaRequest` restricted to the fields the checksum
resolution and chunking logic inspect.  The payload is a byte list; the
two `disable` options use `value_or(false)` in the source, modelled with
`Option.getD false`. -/
structure InsertObjectMediaRequest where
  bucketName : String
  objectName : String
  contents : List Nat
  crc32cChecksumValue : Option String
  disableCrc32cChecksum : Option Bool
  md5HashValue : Option String
  disableMD5Hash : Option Bool
  deriving DecidableEq, Repr

/-- The part of `google.storage.v1.InsertObjectSpec` the claims need:
the resource identity set by the conversion. -/
structure InsertObjectSpec where
  bucket : String
  name : String
  deriving DecidableEq, Repr

/-- `google.storage.v1.ObjectChecksums`: `crc32c` is a wrapped
`UInt32Value` (with presence); `md5_hash` is recorded as `Option` to
model whether `set_md5_hash` ran. -/
structure ObjectChecksums where
  crc32c : Option Nat
  md5Hash : Option String
  deriving DecidableEq, Repr

/-- `google.storage.v1.ChecksummedData`: a content block and its own
crc32c. -/
structure ChecksummedData where
  content : List Nat
  crc32c : Nat
  deriving DecidableEq, Repr

/-- `google.storage.v1.InsertObjectRequest`: message fields touched by
the upload loop.  `Option` on the two one-time fields models proto
message-field presence (`clear_*` sets them back to `none`). -/
structure InsertObjectRequest where
  insertObjectSpec : Option InsertObjectSpec
  objectChecksums : Option ObjectChecksums
  writeOffset : Nat
  checksummedData : Option ChecksummedData
  finishWrite : Bool
  deriving DecidableEq, Repr

/-- One `stream->Write` call: the message plus the
`WriteOptions::set_last_message` marker. -/
structure SentWrite where
  msg : InsertObjectRequest
  lastMessage : Bool
  deriving DecidableEq, Repr

/-- The crc32c branch of `ToProto(InsertObjectMediaRequest)`: explicit
value (validated via `Crc32cToProto`, its error propagated), else the
disable flag, else the computed checksum of the full payload.  The
checksum function itself (`crc32c::Crc32c`, an external library) is a
parameter. -/
def resolveCrc32cField (crc32c : List Nat → Nat)
    (request : InsertObjectMediaRequest) : Except Status (Option Nat) :=
  match request.crc32cChecksumValue with
  | some v =>
      match Crc32cToProto v with
      | .error e => .error e
      | .ok n => .ok (some n)
  | none =>
      if request.disableCrc32cChecksum.getD false then .ok none
      else .ok (some (crc32c request.contents))

/-- The MD5 branch of `ToProto(InsertObjectMediaRequest)`: explicit
value (validated via `MD5ToProto`), else the disable flag, else
`ComputeMD5Hash` of the full payload (MD5 digest function a parameter). -/
def resolveMD5Field (md5 : List Nat → List Nat)
    (request : InsertObjectMediaRequest) : Except Status (Option String) :=
  match request.md5HashValue with
  | some v =>
      match MD5ToProto v with
      | .error e => .error e
      | .ok s => .ok (some s)
  | none =>
      if request.disableMD5Hash.getD false then .ok none
      else .ok (some (ComputeMD5Hash md5 request.contents))

/-- `GrpcClient::ToProto(InsertObjectMediaRequest const&)`: builds the
first-message template; the crc32c block runs before the MD5 block and
either failure aborts the whole conversion. -/
def ToProtoInsertObjectMedia (crc32c : List Nat → Nat) (md5 : List Nat → List Nat)
    (request : InsertObjectMediaRequest) : Except Status InsertObjectRequest :=
  match resolveCrc32cField crc32c request with
  | .error e => .error e
  | .ok crcField =>
      match resolveMD5Field md5 request with
      | .error e => .error e
      | .ok md5Field =>
          .ok { insertObjectSpec := some ⟨request.bucketName, request.objectName⟩,
                objectChecksums := some ⟨crcField, md5Field⟩,
                writeOffset := 0,
                checksummedData := none,
                finishWrite := false }

/-- `google.storage.v1.ServiceConstants::MAX_WRITE_CHUNK_BYTES`.
Modelled from the spec: the proto enum is an external dependency; the
spec fixes the segment cap at 2 MiB (its end-to-end scenario). -/
def MAX_WRITE_CHUNK_BYTES : Nat := 2097152

/-- The `InsertObjectMedia` write loop.  Each iteration sets the write
offset, fills `checksummed_data` with the next `min(remaining, cap)`
bytes and their own crc32c, and either sends the final message (finish
flag plus last-message marker) or sends and clears the one-time fields
from the template.  The transport is modelled as accepting every write.
`fuel` is an upper bound on the iteration count; the caller passes
`contents.length + 1`, which exceeds the number of iterations, so the
exhaustion branch is unreachable. -/
def insertLoop (crc32c : List Nat → Nat) (cap : Nat) (contents : List Nat) :
    Nat → InsertObjectRequest → Nat → List SentWrite
  | 0, _, _ => []
  | fuel + 1, tmpl, offset =>
      let n := min (contents.length - offset) cap
      let data := (contents.drop offset).take n
      let msg : InsertObjectRequest :=
        { tmpl with writeOffset := offset,
                    checksummedData := some ⟨data, crc32c data⟩ }
      if contents.length ≤ offset + n then
        [⟨{ msg with finishWrite := true }, true⟩]
      else
        ⟨msg, false⟩ ::
          insertLoop crc32c cap contents fuel
            { msg with insertObjectSpec := none, objectChecksums := none }
            (offset + n)

/-- `GrpcClient::InsertObjectMedia`: convert the request (aborting, with
no message sent, on a conversion error), then run the write loop from
offset zero. -/
def InsertObjectMedia (crc32c : List Nat → Nat) (md5 : List Nat → List Nat)
    (request : InsertObjectMediaRequest) : Except Status (List SentWrite) :=
  match ToProtoInsertObjectMedia crc32c md5 request with
  | .error e => .error e
  | .ok tmpl =>
      .ok (insertLoop crc32c MAX_WRITE_CHUNK_BYTES request.contents
            (request.contents.length + 1) tmpl 0)

/-- Content carried by a sent message (empty when `checksummed_data` is
absent, which the loop never produces). -/
def sentContent (m : SentWrite) : List Nat :=
  match m.msg.checksummedData with
  | some d => d.content
  | none => []

/-! ### Resumable sessions (`GrpcClient::CreateResumableSession`,
`GrpcClient::RestoreResumableSession`). -/

/-- Decoded resumable-session parameters (bucket, object, upload id). -/
structure UploadSessionParams where
  bucketName : String
  objectName : String
  uploadId : String
  deriving DecidableEq, Repr

/-- Completion state of a resumable session. -/
inductive SessionState where
  | inProgress
  | done
  deriving DecidableEq, Repr

/-- `GrpcResumableUploadSession` state: identity plus the
server-acknowledged committed size. -/
structure GrpcResumableUploadSession where
  params : UploadSessionParams
  committedSize : Nat
  state : SessionState
  deriving DecidableEq, Repr

/-- Response of the `QueryWriteStatus` RPC. -/
structure QueryWriteStatusResponse where
  committedSize : Nat
  complete : Bool
  deriving DecidableEq, Repr

/-- RPC calls the session-manager model can issue, recorded as a trace. -/
inductive RpcCall where
  | queryWriteStatus (uploadId : String)
  | startResumableWrite
  deriving DecidableEq, Repr

/-- Response of the `StartResumableWrite` RPC. -/
structure StartResumableWriteResponse where
  uploadId : String
  deriving DecidableEq, Repr

/-- `ResumableUploadRequest` restricted to the fields
`CreateResumableSession` inspects. -/
structure ResumableUploadRequest where
  bucketName : String
  objectName : String
  useResumableUploadSession : Option String
  deriving DecidableEq, Repr

/-- The `google.storage.v1.StartResumableWriteRequest` fields the claims
need: the resource identity set by
`GrpcClient::ToProto(ResumableUploadRequest const&)`. -/
structure StartResumableWriteRequest where
  bucket : String
  name : String
  deriving DecidableEq, Repr

/-- `GrpcClient::ToProto(ResumableUploadRequest const&)`, restricted to
the resource identity (the conversion never reads the
`UseResumableUploadSession` option). -/
def ToProtoResumableUpload (request : ResumableUploadRequest) : StartResumableWriteRequest :=
  ⟨request.bucketName, request.objectName⟩

/-- Modelled from the spec: `GrpcResumableUploadSession::ResetSession`
(not under `src/`) issues one write-status query for the session's
upload id, transfers no data, and on success sets the committed size
(and completion state) from the response.  The wire behaviour of the
query is a parameter; the trace records the single call made. -/
def ResetSession (query : String → Except Status QueryWriteStatusResponse)
    (session : GrpcResumableUploadSession) :
    List RpcCall × Except Status GrpcResumableUploadSession :=
  ([.queryWriteStatus session.params.uploadId],
   match query session.params.uploadId with
   | .error e => .error e
   | .ok resp =>
       .ok { session with
             committedSize := resp.committedSize,
             state := if resp.complete then .done else .inProgress })

/-- `GrpcClient::RestoreResumableSession`: decode the token (failure is
returned as-is, with no call issued), construct the session, and call
`ResetSession`; on a reset error that error is returned and the session
is dropped.  The token decoder
(`DecodeGrpcResumableUploadSessionUrl`, not under `src/`) is a
parameter; the freshly constructed session starts at committed size 0
and in-progress, per the spec. -/
def RestoreResumableSession (decode : String → Except Status UploadSessionParams)
    (query : String → Except Status QueryWriteStatusResponse)
    (uploadUrl : String) :
    List RpcCall × Except Status GrpcResumableUploadSession :=
  match decode uploadUrl with
  | .error e => ([], .error e)
  | .ok params =>
      let session : GrpcResumableUploadSession := ⟨params, 0, .inProgress⟩
      let reset := ResetSession query session
      (reset.1,
       match reset.2 with
       | .error e => .error e
       | .ok s => .ok s)

/-- The session-start branch of `CreateResumableSession`: issue
`StartResumableWrite` (wire behaviour a parameter) and, on success,
build a fresh session for (bucket, object, returned upload id).
Modelled from the spec: the fresh session's initial committed size is 0
(the session constructor is not under `src/`). -/
def StartNewResumableSession
    (start : StartResumableWriteRequest → Except Status StartResumableWriteResponse)
    (request : ResumableUploadRequest) :
    List RpcCall × Except Status GrpcResumableUploadSession :=
  ([.startResumableWrite],
   match start (ToProtoResumableUpload request) with
   | .error e => .error e
   | .ok resp =>
       .ok ⟨⟨request.bucketName, request.objectName, resp.uploadId⟩, 0, .inProgress⟩)

/-- `GrpcClient::CreateResumableSession`: restore when a non-empty
session token is supplied, otherwise (token absent or empty) start a
brand-new session. -/
def CreateResumableSession (decode : String → Except Status UploadSessionParams)
    (query : String → Except Status QueryWriteStatusResponse)
    (start : StartResumableWriteRequest → Except Status StartResumableWriteResponse)
    (request : ResumableUploadRequest) :
    List RpcCall × Except Status GrpcResumableUploadSession :=
  match request.useResumableUploadSession with
  | some sessionId =>
      if sessionId = "" then StartNewResumableSession start request
      else RestoreResumableSession decode query sessionId
  | none => StartNewResumableSession start request

/-! ### Channel pool sizing (`DefaultGrpcNumChannels`,
`CreateStorageStub`). -/

/-- `DefaultGrpcNumChannels`: at least 4 channels, more when the
detected hardware parallelism is higher. -/
def DefaultGrpcNumChannels (hardwareConcurrency : Nat) : Int :=
  max 4 (hardwareConcurrency : Int)

/-- The channel ids (`grpc.channel_id` identity tokens) of a stub pool:
the round-robin stub is built over this ordered child list. -/
structure StorageStubPool where
  channelIds : List Nat
  deriving DecidableEq, Repr

/-- `CreateStorageStub`: builds `max(1, configured)` child stubs with
distinct channel ids `0, 1, ...`; construction is total (it clamps
rather than failing). -/
def CreateStorageStub (numChannels : Int) : StorageStubPool :=
  ⟨List.range (max 1 numChannels).toNat⟩

/-- The channel-count resolution of `DefaultOptionsGrpc`: a configured
value is kept; otherwise the default is `DefaultGrpcNumChannels`. -/
def effectiveNumChannels (configured : Option Int) (hardwareConcurrency : Nat) : Int :=
  match configured with
  | some n => n
  | none => DefaultGrpcNumChannels hardwareConcurrency

/-! ### Concrete wire-behaviour fixtures, used to instantiate the
function parameters of the session-manager model at specific inputs. -/

/-- A token decoder that accepts every token as (bk, ob, id7). -/
def fixtureDecode : String → Except Status UploadSessionParams :=
  fun _ => .ok ⟨"bk", "ob", "id7"⟩

/-- A token decoder that rejects every token. -/
def fixtureDecodeFail : String → Except Status UploadSessionParams :=
  fun _ => .error ⟨.invalidArgument, "malformed upload url"⟩

/-- A write-status query reporting 42 committed bytes, not complete. -/
def fixtureQuery : String → Except Status QueryWriteStatusResponse :=
  fun _ => .ok ⟨42, false⟩

/-- A write-status query that always fails as unavailable. -/
def fixtureQueryFail : String → Except Status QueryWriteStatusResponse :=
  fun _ => .error ⟨.unavailable, "cannot reach service"⟩

/-- A session-start call handing out a fixed upload id. -/
def fixtureStart : StartResumableWriteRequest → Except Status StartResumableWriteResponse :=
  fun _ => .ok ⟨"fresh-id"⟩

/-- Fallback element for indexed access into a message trace. -/
def padSentWrite : SentWrite := ⟨⟨none, none, 0, none, false⟩, false⟩

/-- Fixture checksum function: payload length as a stand-in crc32c. -/
def fixtureCrc : List Nat → Nat := fun l => l.length

/-- Fixture digest function: the empty digest. -/
def fixtureMD5 : List Nat → List Nat := fun _ => []

/-- Fixture insert request: 3-byte payload, no checksum options. -/
def fixtureInsertRequest : InsertObjectMediaRequest :=
  ⟨"b", "o", [7, 8, 9], none, none, none, none⟩

/-- The message trace `fixtureInsertRequest` produces under `fixtureCrc`
and `fixtureMD5`. -/
def fixtureInsertTrace : List SentWrite :=
  [⟨⟨some ⟨"b", "o"⟩, some ⟨some 3, some ""⟩, 0, some ⟨[7, 8, 9], 3⟩, true⟩, true⟩]

/-- Fixture insert request carrying a malformed explicit crc32c value. -/
def fixtureBadCrcRequest : InsertObjectMediaRequest :=
  ⟨"b", "o", [7, 8, 9], some "####", none, none, none⟩

/-- Fixture insert request carrying a malformed explicit MD5 value. -/
def fixtureBadMD5Request : InsertObjectMediaRequest :=
  ⟨"b", "o", [7, 8, 9], none, none, some "?", none⟩

/-! ### Theorems -/

/-- C1 (divergence witness): the source resolves range [10, 50) combined
with "from offset" 20 to (offset = 20, limit = 10) — the limit is set to
the bytes skipped (f − begin), not to the 30 remaining bytes the claim
states. -/
theorem ToProtoReadObjectRange_fromOffset_divergence :
    ToProtoReadObjectRange ⟨"b", "o", none, some (10, 50), none, some 20⟩ =
      ⟨"b", "o", 0, 20, 10⟩ ∧
    (ToProtoReadObjectRange ⟨"b", "o", none, some (10, 50), none, some 20⟩).readLimit ≠ 30 := by
  decide

/-- C6: a read request with `ReadLast(0)` is rejected locally with
`OutOfRange`, whatever the other options hold; no wire request is
produced. -/
theorem ReadObject_readLast_zero (request : ReadObjectRangeRequest)
    (h : request.readLast = some 0) :
    ReadObject request =
      .error ⟨.outOfRange,
        "ReadLast(0) is invalid in REST and produces incorrect output in gRPC"⟩ := by
  unfold ReadObject
  rw [if_pos h]

theorem ReadObject_readLast_zero_witness :
    (⟨"b", "o", some 7, some (10, 50), some 0, some 3⟩ :
        ReadObjectRangeRequest).readLast = some 0 ∧
    ReadObject ⟨"b", "o", some 7, some (10, 50), some 0, some 3⟩ =
      .error ⟨.outOfRange,
        "ReadLast(0) is invalid in REST and produces incorrect output in gRPC"⟩ :=
  ⟨rfl, ReadObject_readLast_zero _ rfl⟩

/-- C9: when `ReadFromOffset` is present but does not exceed the offset
resolved from the other options, the resolved request is exactly the one
obtained without the option — neither offset nor limit moves. -/
theorem ToProtoReadObjectRange_fromOffset_noop (request : ReadObjectRangeRequest)
    (f : Int) (hf : request.readFromOffset = some f)
    (hle : f ≤ (ToProtoReadObjectRange { request with readFromOffset := none }).readOffset) :
    ToProtoReadObjectRange request =
      ToProtoReadObjectRange { request with readFromOffset := none } := by
  obtain ⟨b, o, g, rr, rl, rf⟩ := request
  simp only at hf
  subst hf
  simp only [ToProtoReadObjectRange] at hle ⊢
  cases rr <;> cases rl <;> simp_all

theorem ToProtoReadObjectRange_fromOffset_noop_witness :
    (⟨"b", "o", none, some (10, 50), none, some 4⟩ :
        ReadObjectRangeRequest).readFromOffset = some 4 ∧
    ToProtoReadObjectRange ⟨"b", "o", none, some (10, 50), none, some 4⟩ =
      ToProtoReadObjectRange ⟨"b", "o", none, some (10, 50), none, none⟩ :=
  ⟨rfl, ToProtoReadObjectRange_fromOffset_noop _ 4 rfl (by decide)⟩

/-- C8: stub-pool construction clamps the configured channel count to at
least one instead of failing (it is total); with no configured count the
default is max(4, detected hardware parallelism). -/
theorem CreateStorageStub_clamps (n : Int) (hw : Nat) :
    (CreateStorageStub n).channelIds.length = (max 1 n).toNat ∧
    1 ≤ (CreateStorageStub n).channelIds.length ∧
    effectiveNumChannels (some n) hw = n ∧
    (CreateStorageStub (effectiveNumChannels none hw)).channelIds.length = max 4 hw := by
  simp only [CreateStorageStub, effectiveNumChannels, DefaultGrpcNumChannels,
    List.length_range]
  refine ⟨trivial, by omega, trivial, by omega⟩

/-- C3: restoration decodes the token (a failure is returned unchanged,
with no call made and no session), then always runs `ResetSession` —
exactly one write-status query — before returning; a reset failure is
returned unchanged with the session dropped, and a returned session is
precisely the reset-synchronized one. -/
theorem RestoreResumableSession_resets
    (decode : String → Except Status UploadSessionParams)
    (query : String → Except Status QueryWriteStatusResponse)
    (uploadUrl : String) :
    (∀ e, decode uploadUrl = .error e →
        RestoreResumableSession decode query uploadUrl = ([], .error e)) ∧
    (∀ p, decode uploadUrl = .ok p →
        (RestoreResumableSession decode query uploadUrl).1 =
          [RpcCall.queryWriteStatus p.uploadId] ∧
        (∀ e, query p.uploadId = .error e →
            (RestoreResumableSession decode query uploadUrl).2 = .error e) ∧
        (∀ s, (RestoreResumableSession decode query uploadUrl).2 = .ok s →
            (ResetSession query ⟨p, 0, .inProgress⟩).2 = .ok s)) := by
  constructor
  · intro e hd
    simp [RestoreResumableSession, hd]
  · intro p hd
    cases hq : query p.uploadId with
    | error e => simp_all [RestoreResumableSession, ResetSession, hd, hq]
    | ok resp => simp_all [RestoreResumableSession, ResetSession, hd, hq]

theorem RestoreResumableSession_resets_witness :
    fixtureDecode "u" = .ok ⟨"bk", "ob", "id7"⟩ ∧
    (RestoreResumableSession fixtureDecode fixtureQuery "u").1 =
      [RpcCall.queryWriteStatus "id7"] :=
  ⟨rfl,
   ((RestoreResumableSession_resets fixtureDecode fixtureQuery "u").2
      ⟨"bk", "ob", "id7"⟩ rfl).1⟩

/-- C10: an empty resumable-session token is treated exactly as an
absent one — the request starts a brand-new session with one
`StartResumableWrite` call and, on success, committed size 0 — while a
non-empty token goes down the restore path. -/
theorem CreateResumableSession_empty_token
    (decode : String → Except Status UploadSessionParams)
    (query : String → Except Status QueryWriteStatusResponse)
    (start : StartResumableWriteRequest → Except Status StartResumableWriteResponse)
    (request : ResumableUploadRequest) :
    (request.useResumableUploadSession = some "" →
        CreateResumableSession decode query start request =
          CreateResumableSession decode query start
            { request with useResumableUploadSession := none } ∧
        (CreateResumableSession decode query start request).1 =
          [RpcCall.startResumableWrite] ∧
        (∀ s, (CreateResumableSession decode query start request).2 = .ok s →
            s.committedSize = 0)) ∧
    (∀ tok, request.useResumableUploadSession = some tok → tok ≠ "" →
        CreateResumableSession decode query start request =
          RestoreResumableSession decode query tok) := by
  obtain ⟨b, o, u⟩ := request
  constructor
  · intro hu
    simp only at hu
    subst hu
    refine ⟨rfl, rfl, ?_⟩
    intro s hs
    simp only [CreateResumableSession, StartNewResumableSession] at hs
    cases hst : start (ToProtoResumableUpload ⟨b, o, some ""⟩) with
    | error e => rw [hst] at hs; cases hs
    | ok resp =>
        rw [hst] at hs
        cases hs
        rfl
  · intro tok hu hne
    simp only at hu
    subst hu
    simp [CreateResumableSession, hne]

theorem CreateResumableSession_empty_token_witness :
    ((⟨"bk", "ob", some ""⟩ : ResumableUploadRequest).useResumableUploadSession =
        some "") ∧
    (CreateResumableSession fixtureDecodeFail fixtureQueryFail fixtureStart
        ⟨"bk", "ob", some ""⟩).1 = [RpcCall.startResumableWrite] :=
  ⟨rfl,
   ((CreateResumableSession_empty_token fixtureDecodeFail fixtureQueryFail
        fixtureStart ⟨"bk", "ob", some ""⟩).1 rfl).2.1⟩

theorem base64DecodeChar_encodeChar (n : Nat) (h : n < 64) :
    base64DecodeChar (base64EncodeChar n) = some n := by
  revert h
  revert n
  decide

theorem base64EncodeChar_ne_pad (n : Nat) (h : n < 64) :
    base64EncodeChar n ≠ '=' := by
  revert h
  revert n
  decide

theorem base64_roundtrip4 (a b c d : Nat) (ha : a < 256) (hb : b < 256)
    (hc : c < 256) (hd : d < 256) :
    Base64Decode (Base64Encode [a, b, c, d]) = .ok [a, b, c, d] := by
  have e0 := base64DecodeChar_encodeChar (a / 4) (by omega)
  have e1 := base64DecodeChar_encodeChar (a % 4 * 16 + b / 16) (by omega)
  have e2 := base64DecodeChar_encodeChar (b % 16 * 4 + c / 64) (by omega)
  have e3 := base64DecodeChar_encodeChar (c % 64) (by omega)
  have e4 := base64DecodeChar_encodeChar (d / 4) (by omega)
  have e5 := base64DecodeChar_encodeChar (d % 4 * 16) (by omega)
  have n2 := base64EncodeChar_ne_pad (b % 16 * 4 + c / 64) (by omega)
  have n3 := base64EncodeChar_ne_pad (c % 64) (by omega)
  unfold Base64Encode Base64Decode
  simp only [base64EncodeGroups, String.toList]
  simp only [base64DecodeQuanta, e0, e1, e2, e3, e4, e5, n2, n3,
    if_neg, ite_false, if_true, ite_true, and_self, Option.map_some']
  simp only [Except.ok.injEq, List.cons.injEq, and_true]
  refine ⟨?_, ?_, ?_, ?_⟩ <;> omega

/-- C4: decoding the wire encoding of any 32-bit value returns the value
(`Crc32cToProto (Crc32cFromProto v) = ok v`), and decoding fails with an
error both on input that is not valid base64 and on base64 that decodes
to a byte count other than four. -/
theorem Crc32cToProto_FromProto_roundtrip :
    (∀ v : Nat, v < 2 ^ 32 → Crc32cToProto (Crc32cFromProto v) = .ok v) ∧
    (∀ s e, Base64Decode s = .error e → Crc32cToProto s = .error e) ∧
    (∀ s bytes, Base64Decode s = .ok bytes → bytes.length ≠ 4 →
        Crc32cToProto s =
          .error ⟨.invalidArgument, "Invalid input size for DecodeBigEndian"⟩) := by
  refine ⟨?_, ?_, ?_⟩
  · intro v hv
    have h := base64_roundtrip4 (v / 2 ^ 24 % 256) (v / 2 ^ 16 % 256)
      (v / 2 ^ 8 % 256) (v % 256) (by omega) (by omega) (by omega) (by omega)
    unfold Crc32cFromProto Crc32cToProto encodeBigEndian32
    rw [h]
    simp only [decodeBigEndian32, Except.ok.injEq]
    omega
  · intro s e h
    unfold Crc32cToProto
    rw [h]
  · intro s bytes h hlen
    unfold Crc32cToProto
    rw [h]
    cases bytes with
    | nil => rfl
    | cons x0 t0 =>
      cases t0 with
      | nil => rfl
      | cons x1 t1 =>
        cases t1 with
        | nil => rfl
        | cons x2 t2 =>
          cases t2 with
          | nil => rfl
          | cons x3 t3 =>
            cases t3 with
            | nil => simp at hlen
            | cons x4 t4 => rfl

theorem Crc32cToProto_FromProto_roundtrip_witness :
    (3735928559 < 2 ^ 32 ∧
      Crc32cToProto (Crc32cFromProto 3735928559) = .ok 3735928559) ∧
    (Base64Decode "####" = .error ⟨.invalidArgument, "Invalid base64 string"⟩ ∧
      Crc32cToProto "####" = .error ⟨.invalidArgument, "Invalid base64 string"⟩) ∧
    (Base64Decode "AAAA" = .ok [0, 0, 0] ∧
      Crc32cToProto "AAAA" =
        .error ⟨.invalidArgument, "Invalid input size for DecodeBigEndian"⟩) :=
  ⟨⟨by decide, Crc32cToProto_FromProto_roundtrip.1 3735928559 (by decide)⟩,
   ⟨rfl, Crc32cToProto_FromProto_roundtrip.2.1 "####" _ rfl⟩,
   ⟨rfl, Crc32cToProto_FromProto_roundtrip.2.2 "AAAA" [0, 0, 0] rfl (by decide)⟩⟩

theorem insertLoop_ne_nil (crc : List Nat → Nat) (cap : Nat) (contents : List Nat)
    (fuel : Nat) (tmpl : InsertObjectRequest) (offset : Nat)
    (hoff : offset ≤ contents.length) (hfuel : contents.length < offset + fuel) :
    insertLoop crc cap contents fuel tmpl offset ≠ [] := by
  cases fuel with
  | zero => omega
  | succ fuel =>
    simp only [insertLoop]
    split
    · simp
    · simp

theorem insertLoop_length (crc : List Nat → Nat) (contents : List Nat) :
    ∀ fuel tmpl offset, offset ≤ contents.length → contents.length < offset + fuel →
      (insertLoop crc MAX_WRITE_CHUNK_BYTES contents fuel tmpl offset).length =
        max 1 ((contents.length - offset + MAX_WRITE_CHUNK_BYTES - 1) /
          MAX_WRITE_CHUNK_BYTES) := by
  intro fuel
  induction fuel with
  | zero => intro tmpl offset h1 h2; omega
  | succ fuel ih =>
    intro tmpl offset h1 h2
    simp only [insertLoop]
    split
    · rename_i hdone
      simp only [List.length_cons, List.length_nil]
      unfold MAX_WRITE_CHUNK_BYTES at *
      omega
    · rename_i hdone
      have hmin : min (contents.length - offset) MAX_WRITE_CHUNK_BYTES =
          MAX_WRITE_CHUNK_BYTES := by
        unfold MAX_WRITE_CHUNK_BYTES at *
        omega
      rw [List.length_cons, ih _ _ (by unfold MAX_WRITE_CHUNK_BYTES at *; omega)
        (by unfold MAX_WRITE_CHUNK_BYTES at *; omega)]
      unfold MAX_WRITE_CHUNK_BYTES at *
      omega

theorem insertLoop_join (crc : List Nat → Nat) (cap : Nat) (contents : List Nat)
    (hcap : 0 < cap) :
    ∀ fuel tmpl offset, offset ≤ contents.length → contents.length < offset + fuel →
      ((insertLoop crc cap contents fuel tmpl offset).map sentContent).flatten =
        contents.drop offset := by
  intro fuel
  induction fuel with
  | zero => intro tmpl offset h1 h2; omega
  | succ fuel ih =>
    intro tmpl offset h1 h2
    simp only [insertLoop]
    split
    · rename_i hdone
      simp only [List.map_cons, List.map_nil, List.flatten_cons, List.flatten_nil,
        sentContent, List.append_nil]
      exact List.take_of_length_le (by simp only [List.length_drop]; omega)
    · rename_i hdone
      have hmin : min (contents.length - offset) cap = cap := by omega
      simp only [hmin] at hdone ⊢
      simp only [List.map_cons, List.flatten_cons, sentContent]
      rw [ih _ (offset + cap) (by omega) (by omega)]
      rw [show contents.drop (offset + cap) = (contents.drop offset).drop cap by
        rw [List.drop_drop]]
      exact List.take_append_drop cap (contents.drop offset)

theorem insertLoop_crc (crc : List Nat → Nat) (cap : Nat) (contents : List Nat)
    (hcap : 0 < cap) :
    ∀ fuel tmpl offset, offset ≤ contents.length → contents.length < offset + fuel →
      ∀ m ∈ insertLoop crc cap contents fuel tmpl offset,
        ∃ d, m.msg.checksummedData = some d ∧ d.crc32c = crc d.content := by
  intro fuel
  induction fuel with
  | zero => intro tmpl offset h1 h2; omega
  | succ fuel ih =>
    intro tmpl offset h1 h2 m hm
    simp only [insertLoop] at hm
    split at hm
    · rename_i hdone
      simp only [List.mem_singleton] at hm
      subst hm
      exact ⟨_, rfl, rfl⟩
    · rename_i hdone
      have hmin : min (contents.length - offset) cap = cap := by omega
      simp only [hmin] at hdone hm
      simp only [List.mem_cons] at hm
      rcases hm with hm | hm
      · subst hm
        exact ⟨_, rfl, rfl⟩
      · exact ih _ (offset + cap) (by omega) (by omega) m hm

theorem insertLoop_getOffset (crc : List Nat → Nat) (cap : Nat) (contents : List Nat)
    (hcap : 0 < cap) :
    ∀ fuel tmpl offset, offset ≤ contents.length → contents.length < offset + fuel →
      ∀ i, i < (insertLoop crc cap contents fuel tmpl offset).length →
        ((insertLoop crc cap contents fuel tmpl offset).getD i padSentWrite).msg.writeOffset =
          offset + i * cap := by
  intro fuel
  induction fuel with
  | zero => intro tmpl offset h1 h2; omega
  | succ fuel ih =>
    intro tmpl offset h1 h2 i hi
    by_cases hdone : contents.length ≤ offset + min (contents.length - offset) cap
    · simp only [insertLoop, if_pos hdone, List.length_cons, List.length_nil] at hi ⊢
      interval_cases i
      simp
    · have hmin : min (contents.length - offset) cap = cap := by omega
      have hdone2 : ¬ contents.length ≤ offset + cap := by omega
      simp only [insertLoop, hmin, if_neg hdone2, List.length_cons] at hi ⊢
      cases i with
      | zero => simp
      | succ i =>
        rw [List.getD_cons_succ]
        rw [ih _ (offset + cap) (by omega) (by omega) i (by omega)]
        ring

theorem insertLoop_cumulativeOffset (crc : List Nat → Nat) (cap : Nat)
    (contents : List Nat) (hcap : 0 < cap) :
    ∀ fuel tmpl offset, offset ≤ contents.length → contents.length < offset + fuel →
      ∀ i, i < (insertLoop crc cap contents fuel tmpl offset).length →
        ((insertLoop crc cap contents fuel tmpl offset).getD i padSentWrite).msg.writeOffset =
          offset + ((((insertLoop crc cap contents fuel tmpl offset).take i).map
            (fun m => (sentContent m).length)).sum) := by
  intro fuel
  induction fuel with
  | zero => intro tmpl offset h1 h2; omega
  | succ fuel ih =>
    intro tmpl offset h1 h2 i hi
    by_cases hdone : contents.length ≤ offset + min (contents.length - offset) cap
    · simp only [insertLoop, if_pos hdone, List.length_cons, List.length_nil] at hi ⊢
      interval_cases i
      simp
    · have hmin : min (contents.length - offset) cap = cap := by omega
      have hdone2 : ¬ contents.length ≤ offset + cap := by omega
      simp only [insertLoop, hmin, if_neg hdone2, List.length_cons] at hi ⊢
      cases i with
      | zero => simp
      | succ i =>
        rw [List.getD_cons_succ]
        rw [ih _ (offset + cap) (by omega) (by omega) i (by omega)]
        simp only [List.take_succ_cons, List.map_cons, List.sum_cons, sentContent]
        rw [List.length_take, List.length_drop]
        omega

theorem insertLoop_flags (crc : List Nat → Nat) (cap : Nat) (contents : List Nat)
    (hcap : 0 < cap) :
    ∀ fuel tmpl offset, tmpl.finishWrite = false → offset ≤ contents.length →
      contents.length < offset + fuel →
      ∀ i,
        (((insertLoop crc cap contents fuel tmpl offset).getD i padSentWrite).msg.finishWrite =
            true ↔ i = (insertLoop crc cap contents fuel tmpl offset).length - 1) ∧
        (((insertLoop crc cap contents fuel tmpl offset).getD i padSentWrite).lastMessage =
            true ↔ i = (insertLoop crc cap contents fuel tmpl offset).length - 1) := by
  intro fuel
  induction fuel with
  | zero => intro tmpl offset htf h1 h2; omega
  | succ fuel ih =>
    intro tmpl offset htf h1 h2 i
    by_cases hdone : contents.length ≤ offset + min (contents.length - offset) cap
    · simp only [insertLoop, if_pos hdone, List.length_cons, List.length_nil]
      cases i with
      | zero => simp
      | succ i => simp [List.getD, padSentWrite]
    · have hmin : min (contents.length - offset) cap = cap := by omega
      have hdone2 : ¬ contents.length ≤ offset + cap := by omega
      simp only [insertLoop, hmin, if_neg hdone2, List.length_cons]
      set tmpl2 : InsertObjectRequest :=
        { insertObjectSpec := none, objectChecksums := none, writeOffset := offset,
          checksummedData := some ⟨(contents.drop offset).take cap,
            crc ((contents.drop offset).take cap)⟩,
          finishWrite := tmpl.finishWrite } with htmpl2
      have htf2 : tmpl2.finishWrite = false := by rw [htmpl2, htf]
      have hnn := insertLoop_ne_nil crc cap contents fuel tmpl2 (offset + cap)
        (by omega) (by omega)
      have hlen : 0 < (insertLoop crc cap contents fuel tmpl2 (offset + cap)).length :=
        List.length_pos.mpr hnn
      cases i with
      | zero =>
        simp only [List.getD_cons_zero, htf]
        exact ⟨by simp; omega, by simp; omega⟩
      | succ i =>
        rw [List.getD_cons_succ]
        have hih := ih tmpl2 (offset + cap) htf2 (by omega) (by omega) i
        exact ⟨by rw [hih.1]; omega, by rw [hih.2]; omega⟩

theorem insertLoop_oneTimeFields (crc : List Nat → Nat) (cap : Nat)
    (contents : List Nat) (hcap : 0 < cap) :
    ∀ fuel tmpl offset, offset ≤ contents.length → contents.length < offset + fuel →
      ∀ i,
        ((insertLoop crc cap contents fuel tmpl offset).getD i padSentWrite).msg.insertObjectSpec =
          (if i = 0 then tmpl.insertObjectSpec else none) ∧
        ((insertLoop crc cap contents fuel tmpl offset).getD i padSentWrite).msg.objectChecksums =
          (if i = 0 then tmpl.objectChecksums else none) := by
  intro fuel
  induction fuel with
  | zero => intro tmpl offset h1 h2; omega
  | succ fuel ih =>
    intro tmpl offset h1 h2 i
    by_cases hdone : contents.length ≤ offset + min (contents.length - offset) cap
    · simp only [insertLoop, if_pos hdone]
      cases i with
      | zero => simp
      | succ i => simp [List.getD, padSentWrite]
    · have hmin : min (contents.length - offset) cap = cap := by omega
      have hdone2 : ¬ contents.length ≤ offset + cap := by omega
      simp only [insertLoop, hmin, if_neg hdone2]
      set tmpl2 : InsertObjectRequest :=
        { insertObjectSpec := none, objectChecksums := none, writeOffset := offset,
          checksummedData := some ⟨(contents.drop offset).take cap,
            crc ((contents.drop offset).take cap)⟩,
          finishWrite := tmpl.finishWrite } with htmpl2
      cases i with
      | zero => simp
      | succ i =>
        rw [List.getD_cons_succ]
        have hih := ih tmpl2 (offset + cap) (by omega) (by omega) i
        rw [hih.1, hih.2, htmpl2]
        simp

theorem ToProtoInsertObjectMedia_ok_shape (crc32c : List Nat → Nat)
    (md5 : List Nat → List Nat) (request : InsertObjectMediaRequest)
    (tmpl : InsertObjectRequest)
    (h : ToProtoInsertObjectMedia crc32c md5 request = .ok tmpl) :
    ∃ crcField md5Field,
      resolveCrc32cField crc32c request = .ok crcField ∧
      resolveMD5Field md5 request = .ok md5Field ∧
      tmpl = ⟨some ⟨request.bucketName, request.objectName⟩,
        some ⟨crcField, md5Field⟩, 0, none, false⟩ := by
  unfold ToProtoInsertObjectMedia at h
  cases hr : resolveCrc32cField crc32c request with
  | error e => rw [hr] at h; cases h
  | ok c =>
    rw [hr] at h
    cases hm : resolveMD5Field md5 request with
    | error e => rw [hm] at h; cases h
    | ok m =>
      rw [hm] at h
      cases h
      exact ⟨c, m, rfl, rfl, rfl⟩

/-- C2: a successful `InsertObjectMedia` with payload size S issues
ceil(S / MAX_WRITE_CHUNK_BYTES) write messages (exactly one when S = 0);
the concatenation of the message contents is the payload; message i's
write offset is i·MAX_WRITE_CHUNK_BYTES, which equals the bytes already
sent before it; every message carries the crc32c of its own content; and
the finish flag and last-message marker sit on exactly the final
message. -/
theorem InsertObjectMedia_chunking (crc32c : List Nat → Nat)
    (md5 : List Nat → List Nat) (request : InsertObjectMediaRequest)
    (msgs : List SentWrite)
    (h : InsertObjectMedia crc32c md5 request = .ok msgs) :
    msgs.length = (if request.contents.length = 0 then 1
      else (request.contents.length + MAX_WRITE_CHUNK_BYTES - 1) /
        MAX_WRITE_CHUNK_BYTES) ∧
    (msgs.map sentContent).flatten = request.contents ∧
    (∀ i, i < msgs.length →
      (msgs.getD i padSentWrite).msg.writeOffset = i * MAX_WRITE_CHUNK_BYTES ∧
      (msgs.getD i padSentWrite).msg.writeOffset =
        (((msgs.take i).map (fun m => (sentContent m).length)).sum)) ∧
    (∀ m ∈ msgs, ∃ d, m.msg.checksummedData = some d ∧
      d.crc32c = crc32c d.content) ∧
    (∀ i, ((msgs.getD i padSentWrite).msg.finishWrite = true ↔
        i = msgs.length - 1) ∧
      ((msgs.getD i padSentWrite).lastMessage = true ↔
        i = msgs.length - 1)) := by
  have hcap : 0 < MAX_WRITE_CHUNK_BYTES := by unfold MAX_WRITE_CHUNK_BYTES; omega
  unfold InsertObjectMedia at h
  cases hp : ToProtoInsertObjectMedia crc32c md5 request with
  | error e => rw [hp] at h; cases h
  | ok tmpl =>
    rw [hp] at h
    cases h
    obtain ⟨c, m, hr, hm, htmpl⟩ :=
      ToProtoInsertObjectMedia_ok_shape crc32c md5 request tmpl hp
    subst htmpl
    set tmpl0 : InsertObjectRequest :=
      ⟨some ⟨request.bucketName, request.objectName⟩, some ⟨c, m⟩, 0, none, false⟩
      with htmpl0
    have htf0 : tmpl0.finishWrite = false := by rw [htmpl0]
    refine ⟨?_, ?_, ?_, ?_, ?_⟩
    · rw [insertLoop_length crc32c request.contents (request.contents.length + 1)
        tmpl0 0 (by omega) (by omega)]
      unfold MAX_WRITE_CHUNK_BYTES
      split <;> omega
    · have := insertLoop_join crc32c MAX_WRITE_CHUNK_BYTES request.contents hcap
        (request.contents.length + 1) tmpl0 0 (by omega) (by omega)
      simpa using this
    · intro i hi
      constructor
      · have := insertLoop_getOffset crc32c MAX_WRITE_CHUNK_BYTES request.contents
          hcap (request.contents.length + 1) tmpl0 0 (by omega) (by omega) i hi
        simpa using this
      · have := insertLoop_cumulativeOffset crc32c MAX_WRITE_CHUNK_BYTES
          request.contents hcap (request.contents.length + 1) tmpl0 0
          (by omega) (by omega) i hi
        simpa using this
    · intro m2 hm2
      exact insertLoop_crc crc32c MAX_WRITE_CHUNK_BYTES request.contents hcap
        (request.contents.length + 1) tmpl0 0 (by omega) (by omega) m2 hm2
    · intro i
      exact insertLoop_flags crc32c MAX_WRITE_CHUNK_BYTES request.contents hcap
        (request.contents.length + 1) tmpl0 0 htf0 (by omega) (by omega) i

theorem InsertObjectMedia_chunking_witness :
    InsertObjectMedia fixtureCrc fixtureMD5 fixtureInsertRequest =
      Except.ok fixtureInsertTrace ∧
    fixtureInsertTrace.length =
      (if fixtureInsertRequest.contents.length = 0 then 1
        else (fixtureInsertRequest.contents.length + MAX_WRITE_CHUNK_BYTES - 1) /
          MAX_WRITE_CHUNK_BYTES) ∧
    (fixtureInsertTrace.map sentContent).flatten = fixtureInsertRequest.contents :=
  ⟨rfl,
   (InsertObjectMedia_chunking fixtureCrc fixtureMD5 fixtureInsertRequest
      fixtureInsertTrace rfl).1,
   (InsertObjectMedia_chunking fixtureCrc fixtureMD5 fixtureInsertRequest
      fixtureInsertTrace rfl).2.1⟩

/-- C7: in every successful `InsertObjectMedia`, the object-specification
and whole-object-checksum fields are present on the first message only;
every later message carries neither. -/
theorem InsertObjectMedia_oneTimeFields (crc32c : List Nat → Nat)
    (md5 : List Nat → List Nat) (request : InsertObjectMediaRequest)
    (msgs : List SentWrite)
    (h : InsertObjectMedia crc32c md5 request = .ok msgs) :
    0 < msgs.length ∧
    (msgs.getD 0 padSentWrite).msg.insertObjectSpec =
      some ⟨request.bucketName, request.objectName⟩ ∧
    (∃ cs, (msgs.getD 0 padSentWrite).msg.objectChecksums = some cs) ∧
    (∀ i, i ≠ 0 →
      (msgs.getD i padSentWrite).msg.insertObjectSpec = none ∧
      (msgs.getD i padSentWrite).msg.objectChecksums = none) := by
  have hcap : 0 < MAX_WRITE_CHUNK_BYTES := by unfold MAX_WRITE_CHUNK_BYTES; omega
  unfold InsertObjectMedia at h
  cases hp : ToProtoInsertObjectMedia crc32c md5 request with
  | error e => rw [hp] at h; cases h
  | ok tmpl =>
    rw [hp] at h
    cases h
    obtain ⟨c, m, hr, hm, htmpl⟩ :=
      ToProtoInsertObjectMedia_ok_shape crc32c md5 request tmpl hp
    subst htmpl
    set tmpl0 : InsertObjectRequest :=
      ⟨some ⟨request.bucketName, request.objectName⟩, some ⟨c, m⟩, 0, none, false⟩
      with htmpl0
    have hnn := insertLoop_ne_nil crc32c MAX_WRITE_CHUNK_BYTES request.contents
      (request.contents.length + 1) tmpl0 0 (by omega) (by omega)
    have hfields := insertLoop_oneTimeFields crc32c MAX_WRITE_CHUNK_BYTES
      request.contents hcap (request.contents.length + 1) tmpl0 0
      (by omega) (by omega)
    refine ⟨List.length_pos.mpr hnn, ?_, ?_, ?_⟩
    · have := (hfields 0).1
      rw [this, if_pos rfl, htmpl0]
    · refine ⟨⟨c, m⟩, ?_⟩
      have := (hfields 0).2
      rw [this, if_pos rfl, htmpl0]
    · intro i hi
      have h1 := (hfields i).1
      have h2 := (hfields i).2
      rw [if_neg hi] at h1 h2
      exact ⟨h1, h2⟩

theorem InsertObjectMedia_oneTimeFields_witness :
    InsertObjectMedia fixtureCrc fixtureMD5 fixtureInsertRequest =
      Except.ok fixtureInsertTrace ∧
    (fixtureInsertTrace.getD 0 padSentWrite).msg.insertObjectSpec =
      some ⟨fixtureInsertRequest.bucketName, fixtureInsertRequest.objectName⟩ ∧
    (∀ i, i ≠ 0 →
      (fixtureInsertTrace.getD i padSentWrite).msg.insertObjectSpec = none ∧
      (fixtureInsertTrace.getD i padSentWrite).msg.objectChecksums = none) :=
  ⟨rfl,
   (InsertObjectMedia_oneTimeFields fixtureCrc fixtureMD5 fixtureInsertRequest
      fixtureInsertTrace rfl).2.1,
   (InsertObjectMedia_oneTimeFields fixtureCrc fixtureMD5 fixtureInsertRequest
      fixtureInsertTrace rfl).2.2.2⟩

/-- C5: for each checksum kind independently, the whole-object checksum
on the first-message template follows the precedence explicit value
(validated; a malformed value fails the whole request before any message
is sent) > disable flag (field left absent) > computed from the full
payload. -/
theorem ToProtoInsertObjectMedia_checksum_precedence (crc32c : List Nat → Nat)
    (md5 : List Nat → List Nat) (request : InsertObjectMediaRequest) :
    (∀ tmpl, ToProtoInsertObjectMedia crc32c md5 request = .ok tmpl →
      ∃ cs, tmpl.objectChecksums = some cs ∧
        (∀ v n, request.crc32cChecksumValue = some v → Crc32cToProto v = .ok n →
          cs.crc32c = some n) ∧
        (request.crc32cChecksumValue = none →
          request.disableCrc32cChecksum.getD false = true → cs.crc32c = none) ∧
        (request.crc32cChecksumValue = none →
          request.disableCrc32cChecksum.getD false = false →
          cs.crc32c = some (crc32c request.contents)) ∧
        (∀ v s, request.md5HashValue = some v → MD5ToProto v = .ok s →
          cs.md5Hash = some s) ∧
        (request.md5HashValue = none → request.disableMD5Hash.getD false = true →
          cs.md5Hash = none) ∧
        (request.md5HashValue = none → request.disableMD5Hash.getD false = false →
          cs.md5Hash = some (ComputeMD5Hash md5 request.contents))) ∧
    (∀ v e, request.crc32cChecksumValue = some v → Crc32cToProto v = .error e →
      ToProtoInsertObjectMedia crc32c md5 request = .error e ∧
      InsertObjectMedia crc32c md5 request = .error e) ∧
    (∀ v e, request.md5HashValue = some v → MD5ToProto v = .error e →
      ∃ e2, ToProtoInsertObjectMedia crc32c md5 request = .error e2 ∧
        InsertObjectMedia crc32c md5 request = .error e2) := by
  refine ⟨?_, ?_, ?_⟩
  · intro tmpl h
    obtain ⟨c, m, hr, hm, htmpl⟩ :=
      ToProtoInsertObjectMedia_ok_shape crc32c md5 request tmpl h
    subst htmpl
    refine ⟨⟨c, m⟩, rfl, ?_, ?_, ?_, ?_, ?_, ?_⟩
    · intro v n hv hd
      unfold resolveCrc32cField at hr
      rw [hv] at hr
      dsimp only at hr
      rw [hd] at hr
      dsimp only at hr
      cases hr
      rfl
    · intro hv hdis
      unfold resolveCrc32cField at hr
      rw [hv] at hr
      dsimp only at hr
      rw [hdis] at hr
      simp only [if_true, ite_true] at hr
      cases hr
      rfl
    · intro hv hdis
      unfold resolveCrc32cField at hr
      rw [hv] at hr
      dsimp only at hr
      rw [hdis] at hr
      simp only [Bool.false_eq_true, if_false, ite_false] at hr
      cases hr
      rfl
    · intro v s hv hd
      unfold resolveMD5Field at hm
      rw [hv] at hm
      dsimp only at hm
      rw [hd] at hm
      dsimp only at hm
      cases hm
      rfl
    · intro hv hdis
      unfold resolveMD5Field at hm
      rw [hv] at hm
      dsimp only at hm
      rw [hdis] at hm
      simp only [if_true, ite_true] at hm
      cases hm
      rfl
    · intro hv hdis
      unfold resolveMD5Field at hm
      rw [hv] at hm
      dsimp only at hm
      rw [hdis] at hm
      simp only [Bool.false_eq_true, if_false, ite_false] at hm
      cases hm
      rfl
  · intro v e hv he
    have hr : resolveCrc32cField crc32c request = .error e := by
      unfold resolveCrc32cField
      rw [hv]
      dsimp only
      rw [he]
    have hp : ToProtoInsertObjectMedia crc32c md5 request = .error e := by
      unfold ToProtoInsertObjectMedia
      rw [hr]
    refine ⟨hp, ?_⟩
    unfold InsertObjectMedia
    rw [hp]
  · intro v e hv he
    have hmfield : resolveMD5Field md5 request = .error e := by
      unfold resolveMD5Field
      rw [hv]
      dsimp only
      rw [he]
    cases hr : resolveCrc32cField crc32c request with
    | error e1 =>
      have hp : ToProtoInsertObjectMedia crc32c md5 request = .error e1 := by
        unfold ToProtoInsertObjectMedia
        rw [hr]
      exact ⟨e1, hp, by unfold InsertObjectMedia; rw [hp]⟩
    | ok c =>
      have hp : ToProtoInsertObjectMedia crc32c md5 request = .error e := by
        unfold ToProtoInsertObjectMedia
        rw [hr, hmfield]
      exact ⟨e, hp, by unfold InsertObjectMedia; rw [hp]⟩

theorem ToProtoInsertObjectMedia_checksum_precedence_witness :
    fixtureBadCrcRequest.crc32cChecksumValue = some "####" ∧
    Crc32cToProto "####" = .error ⟨.invalidArgument, "Invalid base64 string"⟩ ∧
    (ToProtoInsertObjectMedia fixtureCrc fixtureMD5 fixtureBadCrcRequest =
        .error ⟨.invalidArgument, "Invalid base64 string"⟩ ∧
      InsertObjectMedia fixtureCrc fixtureMD5 fixtureBadCrcRequest =
        .error ⟨.invalidArgument, "Invalid base64 string"⟩) ∧
    (∃ e2, ToProtoInsertObjectMedia fixtureCrc fixtureMD5 fixtureBadMD5Request =
        .error e2 ∧
      InsertObjectMedia fixtureCrc fixtureMD5 fixtureBadMD5Request = .error e2) :=
  ⟨rfl, rfl,
   (ToProtoInsertObjectMedia_checksum_precedence fixtureCrc fixtureMD5
      fixtureBadCrcRequest).2.1 "####" _ rfl rfl,
   (ToProtoInsertObjectMedia_checksum_precedence fixtureCrc fixtureMD5
      fixtureBadMD5Request).2.2 "?" _ rfl rfl⟩
